import Mathlib

/-!
Verification of the signup submission workflow of `vfire-push`
(`src/components/auth/OwnerSignupCard.tsx`) and of the reusable labeled
input control (`src/components/auth/InputField.tsx`).

The asynchronous handler `onSubmit` is embedded as a pure function of the
form data together with an environment describing the outcomes of the
remote calls (the `supabase.auth.signUp` call and each
`supabase.from('establishments').insert` call).  The run is summarised by
its final component state (`isLoading`, `errorMessage`) and the ordered
list of externally visible effects it performed.
-/

/-- One establishment sub-entry of the signup form
(interface `EstablishmentData` in `OwnerSignupCard.tsx`). -/
structure EstablishmentData where
  name : String
  dtiCertNo : String
  deriving Repr, DecidableEq

/-- The whole form value (interface `SignupFormData` in `OwnerSignupCard.tsx`).
The optional `middleName` is a plain string; the blank value is `""`. -/
structure SignupFormData where
  firstName : String
  middleName : String
  lastName : String
  email : String
  password : String
  confirmPassword : String
  establishments : List EstablishmentData
  deriving Repr, DecidableEq

/-- The `options.data` profile payload passed to `supabase.auth.signUp`. -/
structure ProfileMetadata where
  first_name : String
  middle_name : Option String
  last_name : String
  role : String
  deriving Repr, DecidableEq

/-- The full argument of the `supabase.auth.signUp` call. -/
structure SignUpRequest where
  email : String
  password : String
  data : ProfileMetadata
  deriving Repr, DecidableEq

/-- The row passed to `supabase.from('establishments').insert`. -/
structure EstablishmentRecord where
  owner_id : String
  name : String
  dti_cert_no : String
  status : String
  deriving Repr, DecidableEq

/-- The argument of a `toast` call.  The success toast carries no `variant`
field; the failure toast carries `variant: "destructive"`. -/
structure Toast where
  title : String
  description : String
  variant : Option String
  duration : Nat
  deriving Repr, DecidableEq

/-- Externally visible effects performed by one run of `onSubmit`, in order. -/
inductive Effect where
  | signUpCall (req : SignUpRequest)
  | insertCall (r : EstablishmentRecord)
  | logCall (msg : String)
  | toastCall (t : Toast)
  | navigateCall (path : String)
  deriving Repr, DecidableEq

/-- Outcome of the remote `supabase.auth.signUp` call: either an `authError`
(carrying its message), or success with `authData.user` either present
(`some` user id) or `null` (`none`). -/
inductive SignUpOutcome where
  | failure (msg : String)
  | success (user : Option String)
  deriving Repr, DecidableEq

/-- The environment of one submission: the outcome of the account-creation
call and, for each position `k`, the outcome of the `k`-th establishment
insert (`none` = no error, `some msg` = `estError` with that message). -/
structure Env where
  signUp : SignUpOutcome
  insertOutcome : Nat → Option String

/-- The `supabase.auth.signUp` request built by `onSubmit` (lines 49-60):
email, password, and profile metadata with the fixed role marker.
`middle_name` embeds `data.middleName || null`: the empty string is the
only falsy string, so a blank middle name becomes `null` (`none`). -/
def mkSignUpRequest (d : SignupFormData) : SignUpRequest :=
  { email := d.email
    password := d.password
    data :=
      { first_name := d.firstName
        middle_name := if d.middleName = "" then none else some d.middleName
        last_name := d.lastName
        role := "establishment_owner" } }

/-- The establishment row inserted for entry `e` once the account `uid`
exists (lines 69-74 of `OwnerSignupCard.tsx`). -/
def toRecord (uid : String) (e : EstablishmentData) : EstablishmentRecord :=
  { owner_id := uid
    name := e.name
    dti_cert_no := e.dtiCertNo
    status := "unregistered" }

/-- The `for (const establishment of data.establishments)` loop
(lines 66-77): issue one insert per entry in order; if the insert at the
current position reports `estError`, throw it (second component `some msg`)
and issue no further inserts.  `k` is the position of the first remaining
entry. -/
def insertLoop (f : Nat → Option String) (uid : String) :
    List EstablishmentData → Nat → List Effect × Option String
  | [], _ => ([], none)
  | e :: rest, k =>
    match f k with
    | some msg => ([Effect.insertCall (toRecord uid e)], some msg)
    | none =>
      let p := insertLoop f uid rest (k + 1)
      (Effect.insertCall (toRecord uid e) :: p.1, p.2)

/-- The success toast (lines 79-83). -/
def successToast : Toast :=
  { title := "Registration successful"
    description := "You can now login to your account."
    variant := none
    duration := 3000 }

/-- The failure toast (lines 90-95); its description is
`error.message || "An error occurred during registration."`. -/
def failureToast (msg : String) : Toast :=
  { title := "Registration failed"
    description := if msg = "" then "An error occurred during registration." else msg
    variant := some "destructive"
    duration := 5000 }

/-- The `try` block of `onSubmit` (lines 47-86): the signUp call, then —
only when `authData.user` is present — the insert loop and, if no insert
threw, the success toast and the navigation.  The second component is the
message of the thrown error, if any. -/
def runTrySignup (env : Env) (d : SignupFormData) : List Effect × Option String :=
  match env.signUp with
  | SignUpOutcome.failure msg => ([Effect.signUpCall (mkSignUpRequest d)], some msg)
  | SignUpOutcome.success none => ([Effect.signUpCall (mkSignUpRequest d)], none)
  | SignUpOutcome.success (some uid) =>
    let p := insertLoop env.insertOutcome uid d.establishments 0
    match p.2 with
    | some msg => (Effect.signUpCall (mkSignUpRequest d) :: p.1, some msg)
    | none =>
      (Effect.signUpCall (mkSignUpRequest d) :: p.1
        ++ [Effect.toastCall successToast, Effect.navigateCall "/owner/login"], none)

/-- Final state and effect trace of one `onSubmit` run. -/
structure SubmitResult where
  isLoading : Bool
  errorMessage : String
  effects : List Effect
  deriving Repr

/-- The whole of `onSubmit` (lines 43-99): `try` body, the `catch` clause
(`console.error`, `setErrorMessage(error.message || ...)`, failure toast),
and the `finally` clause clearing `isLoading`. -/
def onSubmit (env : Env) (d : SignupFormData) : SubmitResult :=
  let p := runTrySignup env d
  match p.2 with
  | none => { isLoading := false, errorMessage := "", effects := p.1 }
  | some msg =>
    { isLoading := false
      errorMessage := if msg = "" then "Failed to register. Please try again." else msg
      effects := p.1 ++ [Effect.logCall msg, Effect.toastCall (failureToast msg)] }

/-- The establishment rows whose insertion was requested, in order. -/
def insertsOf (effs : List Effect) : List EstablishmentRecord :=
  effs.filterMap fun x =>
    match x with
    | Effect.insertCall r => some r
    | _ => none

/-- The toasts emitted, in order. -/
def toastsOf (effs : List Effect) : List Toast :=
  effs.filterMap fun x =>
    match x with
    | Effect.toastCall t => some t
    | _ => none

/-- The navigation targets requested, in order. -/
def navsOf (effs : List Effect) : List String :=
  effs.filterMap fun x =>
    match x with
    | Effect.navigateCall p => some p
    | _ => none

/-- The signUp requests issued, in order. -/
def signUpsOf (effs : List Effect) : List SignUpRequest :=
  effs.filterMap fun x =>
    match x with
    | Effect.signUpCall q => some q
    | _ => none

def SubmitResult.inserts (r : SubmitResult) : List EstablishmentRecord :=
  insertsOf r.effects

def SubmitResult.navs (r : SubmitResult) : List String :=
  navsOf r.effects

def SubmitResult.failureToasts (r : SubmitResult) : List Toast :=
  (toastsOf r.effects).filter fun t => decide (t.variant = some "destructive")

def SubmitResult.successToasts (r : SubmitResult) : List Toast :=
  (toastsOf r.effects).filter fun t => decide (t.variant = none)

/-- Characters allowed in the local part of the email pattern
`[A-Z0-9._%+-]` under the `i` flag (line 157 of `OwnerSignupCard.tsx`). -/
def isLocalChar (c : Char) : Bool :=
  c.isAlpha || c.isDigit || c == '.' || c == '_' || c == '%' || c == '+' || c == '-'

/-- Characters allowed in the middle domain part `[A-Z0-9.-]` under `i`. -/
def isDomainChar (c : Char) : Bool :=
  c.isAlpha || c.isDigit || c == '.' || c == '-'

/-- Match of the email regex `/^[A-Z0-9._%+-]+@[A-Z0-9.-]+\.[A-Z]{2,}$/i`
(line 157): the string splits as `L ++ "@" ++ M ++ "." ++ T` with `L`
nonempty over the local charset, `M` nonempty over the domain charset, and
`T` at least two letters reaching the end.  `i` is the index of the `@`,
`j` the index of the `.` consumed by `\.`; the existential over all split
positions is exactly the regex's backtracking semantics. -/
def emailRegexMatch (s : String) : Bool :=
  let cs := s.data
  (List.range cs.length).any fun i =>
    (List.range cs.length).any fun j =>
      decide (1 ≤ i) && decide (i + 2 ≤ j)
        && (cs[i]? == some '@') && (cs[j]? == some '.')
        && (cs.take i).all isLocalChar
        && ((cs.drop (i + 1)).take (j - i - 1)).all isDomainChar
        && decide (2 ≤ (cs.drop (j + 1)).length) && (cs.drop (j + 1)).all Char.isAlpha

/-- Validation of the email field, embedding
`register("email", { required: "Email is required", pattern: {...,
message: "Invalid email address"} })` (lines 154-160): the `required` rule
fires on the empty string, otherwise the pattern rule fires exactly when
the regex does not match. -/
def validateEmail (s : String) : Option String :=
  if s = "" then some "Email is required"
  else if emailRegexMatch s then none
  else some "Invalid email address"

/-- The blank establishment entry used as `defaultValues` and by the
append button (lines 28 and 198). -/
def blankEstablishment : EstablishmentData :=
  { name := "", dtiCertNo := "" }

/-- Initial `establishments` field-array value (line 28). -/
def initialEstablishments : List EstablishmentData :=
  [blankEstablishment]

/-- The two field-array mutations wired to the UI: `append({name:"",
dtiCertNo:""})` (line 198) and `remove(index)` (line 212). -/
inductive FieldArrayOp where
  | appendBlank
  | removeAt (i : Nat)
  deriving Repr, DecidableEq

def applyFieldArrayOp (l : List EstablishmentData) :
    FieldArrayOp → List EstablishmentData
  | FieldArrayOp.appendBlank => l ++ [blankEstablishment]
  | FieldArrayOp.removeAt i => l.eraseIdx i

/-- Whether the UI offers the operation in state `l`: the append button is
always rendered; the remove button is rendered only for indices `index > 0`
(line 209) of the currently rendered entries. -/
def opOffered (l : List EstablishmentData) : FieldArrayOp → Bool
  | FieldArrayOp.appendBlank => true
  | FieldArrayOp.removeAt i => decide (0 < i) && decide (i < l.length)

def runOps (l : List EstablishmentData) : List FieldArrayOp → List EstablishmentData
  | [] => l
  | op :: ops => runOps (applyFieldArrayOp l op) ops

def opsOffered : List EstablishmentData → List FieldArrayOp → Bool
  | _, [] => true
  | l, op :: ops => opOffered l op && opsOffered (applyFieldArrayOp l op) ops

/-- Local state of `InputField` together with the pass-through `value`
attribute (the toggle touches only `showPassword`, lines 18-24 of
`InputField.tsx`). -/
structure InputFieldState where
  showPassword : Bool
  value : String
  deriving Repr, DecidableEq

/-- `useState(false)` initial state with the given input value. -/
def initialInputFieldState (v : String) : InputFieldState :=
  { showPassword := false, value := v }

/-- `togglePassword` (lines 20-22): flip `showPassword`, nothing else. -/
def togglePassword (st : InputFieldState) : InputFieldState :=
  { st with showPassword := !st.showPassword }

/-- The rendered `inputType` (line 24): `showPassword ? "text" : type`. -/
def inputType (ty : String) (st : InputFieldState) : String :=
  if st.showPassword then "text" else ty

/-! ### Helper lemmas about the insert loop and the effect observers -/

theorem insertLoop_all_ok (f : Nat → Option String) (uid : String) :
    ∀ (es : List EstablishmentData) (k : Nat),
      (∀ j, j < es.length → f (k + j) = none) →
      insertLoop f uid es k
        = (es.map fun e => Effect.insertCall (toRecord uid e), none) := by
  intro es
  induction es with
  | nil => intro k _; rfl
  | cons e rest ih =>
    intro k h
    have h0 : f k = none := by simpa using h 0 (by simp)
    have h1 : ∀ j, j < rest.length → f (k + 1 + j) = none := by
      intro j hj
      have e1 : k + 1 + j = k + (j + 1) := by omega
      rw [e1]
      exact h (j + 1) (by simpa using Nat.succ_lt_succ hj)
    have h2 := ih (k + 1) h1
    simp [insertLoop, h0, h2]

theorem insertLoop_first_fail (f : Nat → Option String) (uid : String) :
    ∀ (es : List EstablishmentData) (k i : Nat) (msg : String),
      i < es.length → f (k + i) = some msg →
      (∀ j, j < i → f (k + j) = none) →
      insertLoop f uid es k
        = ((es.take (i + 1)).map fun e => Effect.insertCall (toRecord uid e), some msg) := by
  intro es
  induction es with
  | nil => intro k i msg h _ _; exact absurd h (by simp)
  | cons e rest ih =>
    intro k i msg hi hf hprev
    cases i with
    | zero =>
      have h0 : f k = some msg := by simpa using hf
      simp [insertLoop, h0]
    | succ n =>
      have h0 : f k = none := by simpa using hprev 0 (Nat.succ_pos n)
      have hf1 : f (k + 1 + n) = some msg := by
        have e1 : k + 1 + n = k + (n + 1) := by omega
        rw [e1]; exact hf
      have hprev1 : ∀ j, j < n → f (k + 1 + j) = none := by
        intro j hj
        have e1 : k + 1 + j = k + (j + 1) := by omega
        rw [e1]; exact hprev (j + 1) (Nat.succ_lt_succ hj)
      have h2 := ih (k + 1) n msg (by simpa using Nat.lt_of_succ_lt_succ hi) hf1 hprev1
      simp [insertLoop, h0, h2]

theorem insertsOf_insertBlock (uid : String) (es : List EstablishmentData) :
    insertsOf (es.map fun e => Effect.insertCall (toRecord uid e)) = es.map (toRecord uid) := by
  induction es with
  | nil => rfl
  | cons e rest ih => simpa [insertsOf, List.filterMap_cons] using ih

theorem toastsOf_insertBlock (uid : String) (es : List EstablishmentData) :
    toastsOf (es.map fun e => Effect.insertCall (toRecord uid e)) = [] := by
  induction es with
  | nil => rfl
  | cons e rest _ => simp [toastsOf, List.filterMap_cons]

theorem navsOf_insertBlock (uid : String) (es : List EstablishmentData) :
    navsOf (es.map fun e => Effect.insertCall (toRecord uid e)) = [] := by
  induction es with
  | nil => rfl
  | cons e rest _ => simp [navsOf, List.filterMap_cons]

theorem signUpsOf_insertBlock (uid : String) (es : List EstablishmentData) :
    signUpsOf (es.map fun e => Effect.insertCall (toRecord uid e)) = [] := by
  induction es with
  | nil => rfl
  | cons e rest _ => simp [signUpsOf, List.filterMap_cons]

theorem navsOf_insertLoop (f : Nat → Option String) (uid : String) :
    ∀ (es : List EstablishmentData) (k : Nat), navsOf (insertLoop f uid es k).1 = [] := by
  intro es
  induction es with
  | nil => intro _; rfl
  | cons e rest ih =>
    intro k
    cases h : f k with
    | some msg => simp [insertLoop, h, navsOf, List.filterMap_cons]
    | none => simpa [insertLoop, h, navsOf, List.filterMap_cons] using ih (k + 1)

theorem signUpsOf_insertLoop (f : Nat → Option String) (uid : String) :
    ∀ (es : List EstablishmentData) (k : Nat), signUpsOf (insertLoop f uid es k).1 = [] := by
  intro es
  induction es with
  | nil => intro _; rfl
  | cons e rest ih =>
    intro k
    cases h : f k with
    | some msg => simp [insertLoop, h, signUpsOf, List.filterMap_cons]
    | none => simpa [insertLoop, h, signUpsOf, List.filterMap_cons] using ih (k + 1)

theorem onSubmit_of_ok (env : Env) (d : SignupFormData) (effs : List Effect)
    (h : runTrySignup env d = (effs, none)) :
    onSubmit env d = { isLoading := false, errorMessage := "", effects := effs } := by
  simp [onSubmit, h]

theorem onSubmit_of_err (env : Env) (d : SignupFormData) (effs : List Effect) (msg : String)
    (h : runTrySignup env d = (effs, some msg)) :
    onSubmit env d =
      { isLoading := false
        errorMessage := if msg = "" then "Failed to register. Please try again." else msg
        effects := effs ++ [Effect.logCall msg, Effect.toastCall (failureToast msg)] } := by
  simp [onSubmit, h]

theorem runTry_authError (f : Nat → Option String) (d : SignupFormData) (msg : String) :
    runTrySignup { signUp := SignUpOutcome.failure msg, insertOutcome := f } d
      = ([Effect.signUpCall (mkSignUpRequest d)], some msg) := rfl

theorem runTry_noUser (f : Nat → Option String) (d : SignupFormData) :
    runTrySignup { signUp := SignUpOutcome.success none, insertOutcome := f } d
      = ([Effect.signUpCall (mkSignUpRequest d)], none) := rfl

theorem runTry_user_ok (f : Nat → Option String) (d : SignupFormData) (uid : String)
    (h : ∀ j, j < d.establishments.length → f j = none) :
    runTrySignup { signUp := SignUpOutcome.success (some uid), insertOutcome := f } d
      = (Effect.signUpCall (mkSignUpRequest d)
          :: (d.establishments.map fun e => Effect.insertCall (toRecord uid e))
          ++ [Effect.toastCall successToast, Effect.navigateCall "/owner/login"], none) := by
  have hl := insertLoop_all_ok f uid d.establishments 0 (by intro j hj; simpa using h j hj)
  simp [runTrySignup, hl]

theorem runTry_user_fail (f : Nat → Option String) (d : SignupFormData) (uid : String)
    (k : Nat) (msg : String)
    (hk : k < d.establishments.length) (hf : f k = some msg)
    (hprev : ∀ j, j < k → f j = none) :
    runTrySignup { signUp := SignUpOutcome.success (some uid), insertOutcome := f } d
      = (Effect.signUpCall (mkSignUpRequest d)
          :: (d.establishments.take (k + 1)).map (fun e => Effect.insertCall (toRecord uid e)),
         some msg) := by
  have hl := insertLoop_first_fail f uid d.establishments 0 k msg hk (by simpa using hf)
    (by intro j hj; simpa using hprev j hj)
  simp [runTrySignup, hl]

theorem insertsOf_nil : insertsOf [] = [] := rfl

theorem insertsOf_cons_signUp (q : SignUpRequest) (l : List Effect) :
    insertsOf (Effect.signUpCall q :: l) = insertsOf l := rfl

theorem insertsOf_cons_insert (r : EstablishmentRecord) (l : List Effect) :
    insertsOf (Effect.insertCall r :: l) = r :: insertsOf l := rfl

theorem insertsOf_cons_log (m : String) (l : List Effect) :
    insertsOf (Effect.logCall m :: l) = insertsOf l := rfl

theorem insertsOf_cons_toast (t : Toast) (l : List Effect) :
    insertsOf (Effect.toastCall t :: l) = insertsOf l := rfl

theorem insertsOf_cons_nav (p : String) (l : List Effect) :
    insertsOf (Effect.navigateCall p :: l) = insertsOf l := rfl

theorem insertsOf_append (l l' : List Effect) :
    insertsOf (l ++ l') = insertsOf l ++ insertsOf l' := by
  simp [insertsOf]

theorem toastsOf_nil : toastsOf [] = [] := rfl

theorem toastsOf_cons_signUp (q : SignUpRequest) (l : List Effect) :
    toastsOf (Effect.signUpCall q :: l) = toastsOf l := rfl

theorem toastsOf_cons_insert (r : EstablishmentRecord) (l : List Effect) :
    toastsOf (Effect.insertCall r :: l) = toastsOf l := rfl

theorem toastsOf_cons_log (m : String) (l : List Effect) :
    toastsOf (Effect.logCall m :: l) = toastsOf l := rfl

theorem toastsOf_cons_toast (t : Toast) (l : List Effect) :
    toastsOf (Effect.toastCall t :: l) = t :: toastsOf l := rfl

theorem toastsOf_cons_nav (p : String) (l : List Effect) :
    toastsOf (Effect.navigateCall p :: l) = toastsOf l := rfl

theorem toastsOf_append (l l' : List Effect) :
    toastsOf (l ++ l') = toastsOf l ++ toastsOf l' := by
  simp [toastsOf]

theorem navsOf_nil : navsOf [] = [] := rfl

theorem navsOf_cons_signUp (q : SignUpRequest) (l : List Effect) :
    navsOf (Effect.signUpCall q :: l) = navsOf l := rfl

theorem navsOf_cons_insert (r : EstablishmentRecord) (l : List Effect) :
    navsOf (Effect.insertCall r :: l) = navsOf l := rfl

theorem navsOf_cons_log (m : String) (l : List Effect) :
    navsOf (Effect.logCall m :: l) = navsOf l := rfl

theorem navsOf_cons_toast (t : Toast) (l : List Effect) :
    navsOf (Effect.toastCall t :: l) = navsOf l := rfl

theorem navsOf_cons_nav (p : String) (l : List Effect) :
    navsOf (Effect.navigateCall p :: l) = p :: navsOf l := rfl

theorem navsOf_append (l l' : List Effect) :
    navsOf (l ++ l') = navsOf l ++ navsOf l' := by
  simp [navsOf]

theorem signUpsOf_nil : signUpsOf [] = [] := rfl

theorem signUpsOf_cons_signUp (q : SignUpRequest) (l : List Effect) :
    signUpsOf (Effect.signUpCall q :: l) = q :: signUpsOf l := rfl

theorem signUpsOf_cons_log (m : String) (l : List Effect) :
    signUpsOf (Effect.logCall m :: l) = signUpsOf l := rfl

theorem signUpsOf_cons_toast (t : Toast) (l : List Effect) :
    signUpsOf (Effect.toastCall t :: l) = signUpsOf l := rfl

theorem signUpsOf_cons_nav (p : String) (l : List Effect) :
    signUpsOf (Effect.navigateCall p :: l) = signUpsOf l := rfl

theorem signUpsOf_append (l l' : List Effect) :
    signUpsOf (l ++ l') = signUpsOf l ++ signUpsOf l' := by
  simp [signUpsOf]

theorem insertsOf_err_effects (q : SignUpRequest) (uid : String)
    (es : List EstablishmentData) (msg : String) :
    insertsOf ((Effect.signUpCall q :: es.map fun e => Effect.insertCall (toRecord uid e))
        ++ [Effect.logCall msg, Effect.toastCall (failureToast msg)])
      = es.map (toRecord uid) := by
  rw [List.cons_append, insertsOf_cons_signUp, insertsOf_append, insertsOf_insertBlock,
    insertsOf_cons_log, insertsOf_cons_toast, insertsOf_nil, List.append_nil]

theorem toastsOf_err_effects (q : SignUpRequest) (uid : String)
    (es : List EstablishmentData) (msg : String) :
    toastsOf ((Effect.signUpCall q :: es.map fun e => Effect.insertCall (toRecord uid e))
        ++ [Effect.logCall msg, Effect.toastCall (failureToast msg)])
      = [failureToast msg] := by
  rw [List.cons_append, toastsOf_cons_signUp, toastsOf_append, toastsOf_insertBlock,
    toastsOf_cons_log, toastsOf_cons_toast, toastsOf_nil, List.nil_append]

theorem navsOf_err_effects (q : SignUpRequest) (uid : String)
    (es : List EstablishmentData) (msg : String) :
    navsOf ((Effect.signUpCall q :: es.map fun e => Effect.insertCall (toRecord uid e))
        ++ [Effect.logCall msg, Effect.toastCall (failureToast msg)])
      = [] := by
  rw [List.cons_append, navsOf_cons_signUp, navsOf_append, navsOf_insertBlock,
    navsOf_cons_log, navsOf_cons_toast, navsOf_nil, List.nil_append]

/-! ### Claim theorems -/

/-- Claim C4: for every environment outcome (success, remote rejection at
either phase, or the silent null-user case) and every form value, the run
of `onSubmit` ends with the `Submitting` indicator cleared: the `finally`
clause always sets `isLoading` back to `false`. -/
theorem onSubmit_clears_loading (env : Env) (d : SignupFormData) :
    (onSubmit env d).isLoading = false := by
  rcases h : runTrySignup env d with ⟨effs, res⟩
  cases res with
  | none => rw [onSubmit_of_ok env d effs h]
  | some msg => rw [onSubmit_of_err env d effs msg h]

/-- Claim C3: when the account-creation call is rejected with an error
(any message, including an empty one), zero establishment inserts are
issued, the final state is Failed (the inline error message is non-empty),
exactly one failure notification is emitted, no navigation occurs, and the
in-progress indicator is cleared. -/
theorem submit_authError_behavior (d : SignupFormData) (f : Nat → Option String)
    (msg : String) :
    (onSubmit { signUp := SignUpOutcome.failure msg, insertOutcome := f } d).inserts = []
    ∧ (onSubmit { signUp := SignUpOutcome.failure msg, insertOutcome := f } d).errorMessage ≠ ""
    ∧ (onSubmit { signUp := SignUpOutcome.failure msg, insertOutcome := f } d).failureToasts.length = 1
    ∧ (onSubmit { signUp := SignUpOutcome.failure msg, insertOutcome := f } d).navs = []
    ∧ (onSubmit { signUp := SignUpOutcome.failure msg, insertOutcome := f } d).isLoading = false := by
  have h := onSubmit_of_err _ d _ msg (runTry_authError f d msg)
  rw [h]
  refine ⟨rfl, ?_, rfl, rfl, rfl⟩
  dsimp only
  split
  · decide
  · assumption

/-- A concrete form value used for counterexamples. -/
def dOneEntry : SignupFormData :=
  { firstName := "Ana"
    middleName := ""
    lastName := "Cruz"
    email := "a@b.co"
    password := "longenough1"
    confirmPassword := "longenough1"
    establishments := [{ name := "Shop", dtiCertNo := "123" }] }

/-- Environment in which `signUp` reports no error and a `null` user. -/
def envNoUser : Env :=
  { signUp := SignUpOutcome.success none, insertOutcome := fun _ => none }

/-- Claim C1 is false on the code: with no `authError` but `authData.user`
null, `onSubmit` runs `if (authData.user) { ... }` with no `else`, so it
neither sets the Failed state (the inline error message stays empty) nor
emits a failure notification. -/
theorem submit_noUser_claim_false :
    ¬ ((onSubmit envNoUser dOneEntry).errorMessage ≠ ""
        ∧ (onSubmit envNoUser dOneEntry).failureToasts.length = 1) := by
  decide

/-- Claim C1 (amended): when the account-creation call completes without
error but returns no created-account identity, the workflow silently
finishes: no establishment record is written, but also no Failed state is
entered, the inline error message stays empty, no notification of any kind
is emitted, no navigation occurs, and the only effect of the run is the
sign-up call itself; the in-progress indicator is cleared. -/
theorem submit_noUser_silent (d : SignupFormData) (f : Nat → Option String) :
    (onSubmit { signUp := SignUpOutcome.success none, insertOutcome := f } d).errorMessage = ""
    ∧ (onSubmit { signUp := SignUpOutcome.success none, insertOutcome := f } d).inserts = []
    ∧ toastsOf (onSubmit { signUp := SignUpOutcome.success none, insertOutcome := f } d).effects = []
    ∧ (onSubmit { signUp := SignUpOutcome.success none, insertOutcome := f } d).navs = []
    ∧ (onSubmit { signUp := SignUpOutcome.success none, insertOutcome := f } d).effects
        = [Effect.signUpCall (mkSignUpRequest d)]
    ∧ (onSubmit { signUp := SignUpOutcome.success none, insertOutcome := f } d).isLoading = false := by
  have h := onSubmit_of_ok _ d _ (runTry_noUser f d)
  rw [h]
  exact ⟨rfl, rfl, rfl, rfl, rfl, rfl⟩

/-- Claim C2: account creation succeeds and the insert at position `k` is
the first to fail.  Exactly the first `k + 1` entries get an insertion
request (none after the failing one), the final state is Failed with a
populated error message, exactly one failure notification is emitted, no
navigation occurs, and the indicator is cleared.  The trace contains no
compensating effect: completed inserts and the created account stand. -/
theorem submit_insertError_short_circuits (d : SignupFormData) (uid : String)
    (f : Nat → Option String) (k : Nat) (msg : String)
    (hk : k < d.establishments.length) (hf : f k = some msg)
    (hprev : ∀ j, j < k → f j = none) :
    (onSubmit { signUp := SignUpOutcome.success (some uid), insertOutcome := f } d).inserts
        = (d.establishments.take (k + 1)).map (toRecord uid)
    ∧ (onSubmit { signUp := SignUpOutcome.success (some uid), insertOutcome := f } d).inserts.length
        = k + 1
    ∧ (onSubmit { signUp := SignUpOutcome.success (some uid), insertOutcome := f } d).errorMessage ≠ ""
    ∧ (onSubmit { signUp := SignUpOutcome.success (some uid), insertOutcome := f } d).failureToasts.length = 1
    ∧ (onSubmit { signUp := SignUpOutcome.success (some uid), insertOutcome := f } d).navs = []
    ∧ (onSubmit { signUp := SignUpOutcome.success (some uid), insertOutcome := f } d).isLoading = false := by
  have h := onSubmit_of_err _ d _ msg (runTry_user_fail f d uid k msg hk hf hprev)
  rw [h]
  have hIns := insertsOf_err_effects (mkSignUpRequest d) uid (d.establishments.take (k + 1)) msg
  refine ⟨hIns, ?_, ?_, ?_, ?_, rfl⟩
  · show (insertsOf _).length = k + 1
    rw [hIns, List.length_map, List.length_take]
    omega
  · dsimp only
    split
    · decide
    · assumption
  · show ((toastsOf _).filter _).length = 1
    rw [toastsOf_err_effects (mkSignUpRequest d) uid (d.establishments.take (k + 1)) msg]
    rfl
  · show navsOf _ = []
    exact navsOf_err_effects (mkSignUpRequest d) uid (d.establishments.take (k + 1)) msg

/-- A concrete form value with two establishment entries. -/
def dTwoEntries : SignupFormData :=
  { firstName := "Ana"
    middleName := ""
    lastName := "Cruz"
    email := "a@b.co"
    password := "longenough1"
    confirmPassword := "longenough1"
    establishments :=
      [{ name := "Shop", dtiCertNo := "123" }, { name := "Cafe", dtiCertNo := "456" }] }

/-- Insert outcomes in which only the first insert fails. -/
def fFirstFails : Nat → Option String :=
  fun j => if j = 0 then some "insert failed" else none

theorem submit_insertError_short_circuits_witness :
    (onSubmit { signUp := SignUpOutcome.success (some "u1"), insertOutcome := fFirstFails }
        dTwoEntries).inserts
      = (dTwoEntries.establishments.take 1).map (toRecord "u1")
    ∧ (onSubmit { signUp := SignUpOutcome.success (some "u1"), insertOutcome := fFirstFails }
        dTwoEntries).inserts.length = 1
    ∧ (onSubmit { signUp := SignUpOutcome.success (some "u1"), insertOutcome := fFirstFails }
        dTwoEntries).errorMessage ≠ ""
    ∧ (onSubmit { signUp := SignUpOutcome.success (some "u1"), insertOutcome := fFirstFails }
        dTwoEntries).failureToasts.length = 1
    ∧ (onSubmit { signUp := SignUpOutcome.success (some "u1"), insertOutcome := fFirstFails }
        dTwoEntries).navs = []
    ∧ (onSubmit { signUp := SignUpOutcome.success (some "u1"), insertOutcome := fFirstFails }
        dTwoEntries).isLoading = false :=
  submit_insertError_short_circuits dTwoEntries "u1" fFirstFails 0 "insert failed"
    (by decide) rfl (fun j hj => absurd hj (Nat.not_lt_zero j))

theorem toastsOf_ok_effects (q : SignUpRequest) (uid : String) (es : List EstablishmentData) :
    toastsOf (Effect.signUpCall q :: (es.map fun e => Effect.insertCall (toRecord uid e))
        ++ [Effect.toastCall successToast, Effect.navigateCall "/owner/login"])
      = [successToast] := by
  rw [List.cons_append, toastsOf_cons_signUp, toastsOf_append, toastsOf_insertBlock,
    toastsOf_cons_toast, toastsOf_cons_nav, toastsOf_nil, List.nil_append]

theorem navsOf_ok_effects (q : SignUpRequest) (uid : String) (es : List EstablishmentData) :
    navsOf (Effect.signUpCall q :: (es.map fun e => Effect.insertCall (toRecord uid e))
        ++ [Effect.toastCall successToast, Effect.navigateCall "/owner/login"])
      = ["/owner/login"] := by
  rw [List.cons_append, navsOf_cons_signUp, navsOf_append, navsOf_insertBlock,
    navsOf_cons_toast, navsOf_cons_nav, navsOf_nil, List.nil_append]

/-- Claim C5: when account creation succeeds with a user identity and every
establishment insert succeeds, the run ends in the Success state (empty
inline error message), emits exactly one success-severity notification (a
toast without the destructive variant) and no failure notification, issues
exactly one navigation call, to "/owner/login", and clears the indicator.
Moreover — in any run whatsoever — a navigation can only happen in such a
fully successful run: whenever any navigation occurred, the error message
is empty and the navigation trace is exactly ["/owner/login"]. -/
theorem submit_success_behavior (env : Env) (d : SignupFormData) (uid : String) :
    (env.signUp = SignUpOutcome.success (some uid) →
      (∀ j, j < d.establishments.length → env.insertOutcome j = none) →
      (onSubmit env d).errorMessage = ""
      ∧ (onSubmit env d).successToasts.length = 1
      ∧ (onSubmit env d).failureToasts.length = 0
      ∧ (onSubmit env d).navs = ["/owner/login"]
      ∧ (onSubmit env d).isLoading = false)
    ∧ ((onSubmit env d).navs ≠ [] →
      (onSubmit env d).errorMessage = "" ∧ (onSubmit env d).navs = ["/owner/login"]) := by
  obtain ⟨s, f⟩ := env
  constructor
  · intro hs hok
    dsimp only at hs hok
    subst hs
    have h := onSubmit_of_ok _ d _ (runTry_user_ok f d uid hok)
    rw [h]
    refine ⟨rfl, ?_, ?_, ?_, rfl⟩
    · show ((toastsOf _).filter _).length = 1
      rw [toastsOf_ok_effects (mkSignUpRequest d) uid d.establishments]
      rfl
    · show ((toastsOf _).filter _).length = 0
      rw [toastsOf_ok_effects (mkSignUpRequest d) uid d.establishments]
      rfl
    · show navsOf _ = _
      exact navsOf_ok_effects (mkSignUpRequest d) uid d.establishments
  · intro hnav
    cases s with
    | failure msg =>
      exfalso
      apply hnav
      rw [onSubmit_of_err _ d _ msg (runTry_authError f d msg)]
      rfl
    | success user =>
      cases user with
      | none =>
        exfalso
        apply hnav
        rw [onSubmit_of_ok _ d _ (runTry_noUser f d)]
        rfl
      | some u =>
        rcases hp : insertLoop f u d.establishments 0 with ⟨effs, res⟩
        have hn : navsOf effs = [] := by
          have h2 := navsOf_insertLoop f u d.establishments 0
          rw [hp] at h2
          exact h2
        cases res with
        | some msg =>
          exfalso
          have hrun : runTrySignup { signUp := SignUpOutcome.success (some u), insertOutcome := f } d
              = (Effect.signUpCall (mkSignUpRequest d) :: effs, some msg) := by
            simp [runTrySignup, hp]
          apply hnav
          rw [onSubmit_of_err _ d _ msg hrun]
          show navsOf _ = []
          rw [List.cons_append, navsOf_cons_signUp, navsOf_append, hn, List.nil_append]
          rfl
        | none =>
          have hrun : runTrySignup { signUp := SignUpOutcome.success (some u), insertOutcome := f } d
              = (Effect.signUpCall (mkSignUpRequest d) :: effs
                  ++ [Effect.toastCall successToast, Effect.navigateCall "/owner/login"], none) := by
            simp [runTrySignup, hp]
          rw [onSubmit_of_ok _ d _ hrun]
          refine ⟨rfl, ?_⟩
          show navsOf _ = _
          rw [List.cons_append, navsOf_cons_signUp, navsOf_append, hn, List.nil_append]
          rfl

/-- Environment in which account creation succeeds with user "u1" and
every insert succeeds. -/
def envAllOk : Env :=
  { signUp := SignUpOutcome.success (some "u1"), insertOutcome := fun _ => none }

theorem submit_success_behavior_witness :
    ((onSubmit envAllOk dTwoEntries).errorMessage = ""
      ∧ (onSubmit envAllOk dTwoEntries).successToasts.length = 1
      ∧ (onSubmit envAllOk dTwoEntries).failureToasts.length = 0
      ∧ (onSubmit envAllOk dTwoEntries).navs = ["/owner/login"]
      ∧ (onSubmit envAllOk dTwoEntries).isLoading = false)
    ∧ ((onSubmit envAllOk dTwoEntries).errorMessage = ""
      ∧ (onSubmit envAllOk dTwoEntries).navs = ["/owner/login"]) :=
  ⟨(submit_success_behavior envAllOk dTwoEntries "u1").1 rfl (fun _ _ => rfl),
    (submit_success_behavior envAllOk dTwoEntries "u1").2 (by decide)⟩

/-- Claim C6 is false as universally stated: in a submission with two
establishment entries where account creation succeeds but the first insert
fails, the second entry never receives an insertion request, so it is not
the case that exactly one insertion request is issued per entry. -/
theorem submit_insert_per_entry_false :
    ¬ ((onSubmit { signUp := SignUpOutcome.success (some "u1"), insertOutcome := fFirstFails }
          dTwoEntries).inserts
        = dTwoEntries.establishments.map (toRecord "u1")) := by
  decide

/-- Claim C6 (amended): when account creation succeeds and every insertion
succeeds, exactly one insertion request is issued per establishment entry,
in list order, and each inserted row carries the new account identifier as
owner reference, the entry's name, the entry's certificate number, and the
status field fixed to "unregistered".  (When an insertion fails, entries
after the failing one receive no request.) -/
theorem submit_insert_per_entry_when_all_ok (d : SignupFormData) (uid : String)
    (f : Nat → Option String)
    (hok : ∀ j, j < d.establishments.length → f j = none) :
    (onSubmit { signUp := SignUpOutcome.success (some uid), insertOutcome := f } d).inserts
      = d.establishments.map fun e =>
          ({ owner_id := uid
             name := e.name
             dti_cert_no := e.dtiCertNo
             status := "unregistered" } : EstablishmentRecord) := by
  have h := onSubmit_of_ok _ d _ (runTry_user_ok f d uid hok)
  rw [h]
  show insertsOf _ = _
  rw [List.cons_append, insertsOf_cons_signUp, insertsOf_append, insertsOf_insertBlock,
    insertsOf_cons_toast, insertsOf_cons_nav, insertsOf_nil, List.append_nil]
  rfl

theorem submit_insert_per_entry_when_all_ok_witness :
    (onSubmit envAllOk dTwoEntries).inserts
      = dTwoEntries.establishments.map fun e =>
          ({ owner_id := "u1"
             name := e.name
             dti_cert_no := e.dtiCertNo
             status := "unregistered" } : EstablishmentRecord) :=
  submit_insert_per_entry_when_all_ok dTwoEntries "u1" (fun _ => none) (fun _ _ => rfl)

/-- Claim C7: every run issues exactly one account-creation call, whose
request carries the form's email and password and a profile payload with
the first and last names and the fixed role marker "establishment_owner";
a blank middle name is sent as the explicit absence marker `none`
(never as `some ""`). -/
theorem signUp_request_payload (env : Env) (d : SignupFormData) :
    signUpsOf (onSubmit env d).effects = [mkSignUpRequest d]
    ∧ (mkSignUpRequest d).email = d.email
    ∧ (mkSignUpRequest d).password = d.password
    ∧ (mkSignUpRequest d).data.first_name = d.firstName
    ∧ (mkSignUpRequest d).data.last_name = d.lastName
    ∧ (mkSignUpRequest d).data.role = "establishment_owner"
    ∧ (mkSignUpRequest { d with middleName := "" }).data.middle_name = none
    ∧ (mkSignUpRequest d).data.middle_name ≠ some "" := by
  refine ⟨?_, rfl, rfl, rfl, rfl, rfl, rfl, ?_⟩
  · obtain ⟨s, f⟩ := env
    cases s with
    | failure msg =>
      rw [onSubmit_of_err _ d _ msg (runTry_authError f d msg)]
      rfl
    | success user =>
      cases user with
      | none =>
        rw [onSubmit_of_ok _ d _ (runTry_noUser f d)]
        rfl
      | some u =>
        rcases hp : insertLoop f u d.establishments 0 with ⟨effs, res⟩
        have hs : signUpsOf effs = [] := by
          have h2 := signUpsOf_insertLoop f u d.establishments 0
          rw [hp] at h2
          exact h2
        cases res with
        | some msg =>
          have hrun : runTrySignup { signUp := SignUpOutcome.success (some u), insertOutcome := f } d
              = (Effect.signUpCall (mkSignUpRequest d) :: effs, some msg) := by
            simp [runTrySignup, hp]
          rw [onSubmit_of_err _ d _ msg hrun]
          show signUpsOf _ = _
          rw [List.cons_append, signUpsOf_cons_signUp, signUpsOf_append, hs, List.nil_append]
          rfl
        | none =>
          have hrun : runTrySignup { signUp := SignUpOutcome.success (some u), insertOutcome := f } d
              = (Effect.signUpCall (mkSignUpRequest d) :: effs
                  ++ [Effect.toastCall successToast, Effect.navigateCall "/owner/login"], none) := by
            simp [runTrySignup, hp]
          rw [onSubmit_of_ok _ d _ hrun]
          show signUpsOf _ = _
          rw [List.cons_append, signUpsOf_cons_signUp, signUpsOf_append, hs, List.nil_append]
          rfl
  · show (if d.middleName = "" then none else some d.middleName) ≠ some ""
    split
    · simp
    · next hne =>
      intro hEq
      exact hne (Option.some.inj hEq)

/-- Claim C8: the email field fails the `required` rule exactly on the empty
string (with message "Email is required"); a non-empty email is reported
"Invalid email address" exactly when the embedded regex
`/^[A-Z0-9._%+-]+@[A-Z0-9.-]+\.[A-Z]{2,}$/i` does not match;
concretely "bad-email" is rejected as invalid format while "a@b.co"
passes validation. -/
theorem validateEmail_spec :
    validateEmail "" = some "Email is required"
    ∧ (∀ s : String, s ≠ "" →
        (validateEmail s = some "Invalid email address" ↔ emailRegexMatch s = false))
    ∧ validateEmail "bad-email" = some "Invalid email address"
    ∧ validateEmail "a@b.co" = none := by
  refine ⟨rfl, ?_, by decide, by decide⟩
  intro s hs
  cases h : emailRegexMatch s <;> simp [validateEmail, hs, h]

theorem validateEmail_spec_witness :
    validateEmail "" = some "Email is required"
    ∧ (validateEmail "bad-email" = some "Invalid email address"
        ↔ emailRegexMatch "bad-email" = false)
    ∧ validateEmail "bad-email" = some "Invalid email address"
    ∧ validateEmail "a@b.co" = none :=
  ⟨validateEmail_spec.1,
    validateEmail_spec.2.1 "bad-email" (by decide),
    validateEmail_spec.2.2.1,
    validateEmail_spec.2.2.2⟩

theorem runOps_len_ge_one :
    ∀ (ops : List FieldArrayOp) (l : List EstablishmentData),
      1 ≤ l.length → opsOffered l ops = true → 1 ≤ (runOps l ops).length := by
  intro ops
  induction ops with
  | nil =>
    intro l h _
    exact h
  | cons op rest ih =>
    intro l hl hoff
    rw [opsOffered, Bool.and_eq_true] at hoff
    obtain ⟨h1, h2⟩ := hoff
    refine ih (applyFieldArrayOp l op) ?_ h2
    cases op with
    | appendBlank =>
      show 1 ≤ (l ++ [blankEstablishment]).length
      rw [List.length_append]
      omega
    | removeAt i =>
      rw [opOffered, Bool.and_eq_true, decide_eq_true_eq, decide_eq_true_eq] at h1
      obtain ⟨hi0, hil⟩ := h1
      cases l with
      | nil => simp at hil
      | cons a t =>
        cases i with
        | zero => omega
        | succ n =>
          show 1 ≤ (a :: t.eraseIdx n).length
          rw [List.length_cons]
          omega

/-- Claim C9: the establishments field array starts as exactly one blank
entry; the only mutations the UI offers are appending a blank entry and
removing an entry at an index strictly greater than 0 (bounded by the
rendered list), so after any offered sequence of operations the list keeps
at least one entry; and appending to a one-entry list then removing index 1
restores exactly the original one-entry list. -/
theorem establishments_list_invariant :
    initialEstablishments = [blankEstablishment]
    ∧ (∀ ops : List FieldArrayOp, opsOffered initialEstablishments ops = true →
        1 ≤ (runOps initialEstablishments ops).length)
    ∧ (∀ e : EstablishmentData,
        runOps [e] [FieldArrayOp.appendBlank, FieldArrayOp.removeAt 1] = [e]) := by
  refine ⟨rfl, ?_, ?_⟩
  · intro ops h
    exact runOps_len_ge_one ops initialEstablishments (by decide) h
  · intro e
    rfl

theorem establishments_list_invariant_witness :
    initialEstablishments = [blankEstablishment]
    ∧ 1 ≤ (runOps initialEstablishments
        [FieldArrayOp.appendBlank, FieldArrayOp.removeAt 1]).length
    ∧ runOps [blankEstablishment] [FieldArrayOp.appendBlank, FieldArrayOp.removeAt 1]
        = [blankEstablishment] :=
  ⟨establishments_list_invariant.1,
    establishments_list_invariant.2.1 [FieldArrayOp.appendBlank, FieldArrayOp.removeAt 1]
      (by decide),
    establishments_list_invariant.2.2 blankEstablishment⟩

/-- Claim C10: toggling the reveal state twice restores the originally
rendered input type for every configured type; when the configured type is
already "text" a single toggle leaves the rendered type unchanged; and
toggling never alters the input's value. -/
theorem inputField_toggle_spec (ty : String) (st : InputFieldState) :
    inputType ty (togglePassword (togglePassword st)) = inputType ty st
    ∧ inputType "text" (togglePassword st) = inputType "text" st
    ∧ (togglePassword st).value = st.value := by
  refine ⟨?_, ?_, rfl⟩
  · show (if !!st.showPassword then "text" else ty) = _
    rw [Bool.not_not]
    rfl
  · show (if !st.showPassword then "text" else "text") = (if st.showPassword then "text" else "text")
    rw [ite_self, ite_self]
